import Mathlib

/-!
Verification of the mcp-server-collection repository: a shallow embedding of
`fhir_mcp_server/fhir_server.py` and `npi_mcp_server/npi_server.py`.

Modelling conventions:
* JSON values are the inductive `Json`; `response.json()` is assumed to parse
  (the claims never exercise malformed-JSON bodies).
* The outside world (the `requests` library) is a function
  `HttpRequest -> HttpOutcome`; each operation additionally returns the list of
  HTTP requests it issued, in order.
* Python's module-level mutable globals (`ACCESS_TOKEN`, `TOKEN_EXPIRES_AT`)
  become an explicit `TokenState` threaded through the token manager; the
  configuration globals become `FhirConfig`.  `time.time()` becomes the `now`
  argument (the source reads the clock twice a few lines apart; the claims
  treat both reads as one instant).
* Raised Python exceptions become `Except PyError`; `try`/`except` blocks
  become matches on that value.
-/

/-- JSON values, as produced by `response.json()`. -/
inductive Json where
  | null
  | bool (b : Bool)
  | num (n : Int)
  | str (s : String)
  | arr (elems : List Json)
  | obj (fields : List (String × Json))

/-- Dictionary lookup on a JSON object's field list (first match wins,
mirroring Python dict key access). -/
def lookupField : List (String × Json) → String → Option Json
  | [], _ => none
  | (k, v) :: rest, key => if k = key then some v else lookupField rest key

/-- Python `d.get(key)`: `some` value when the key is present in an object,
`none` otherwise (and `none` on non-objects; Python would raise
`AttributeError` there, which the callers below surface separately where it
matters). -/
def Json.get? : Json → String → Option Json
  | .obj fields, key => lookupField fields key
  | _, _ => none

/-- Python `d.get(key, default)`. A missing key yields the default; a key
bound to JSON `null` yields `null` (as in Python, where `get` returns `None`
stored under the key). -/
def Json.getD (j : Json) (key : String) (d : Json) : Json :=
  (j.get? key).getD d

/-- Python `d.get(key, "")` as used in string concatenation
(`basic.get("first_name", "") + " " + basic.get("last_name", "")`): `some`
string when the key is absent (the `""` default) or holds a string; `none`
encodes the `TypeError` Python raises when `+` meets a non-string value. -/
def Json.getStrD? (j : Json) (key : String) : Option String :=
  match j.get? key with
  | none => some ""
  | some (.str s) => some s
  | some _ => none

/-- Python truthiness of a JSON value. -/
def Json.pyTruthy : Json → Bool
  | .null => false
  | .bool b => b
  | .num n => n != 0
  | .str s => s != ""
  | .arr xs => !xs.isEmpty
  | .obj fs => !fs.isEmpty

/-- Python `len`: defined on strings, lists and dicts; `none` encodes the
`TypeError` raised on other values. -/
def Json.pyLen? : Json → Option Nat
  | .str s => some s.length
  | .arr xs => some xs.length
  | .obj fs => some fs.length
  | _ => none

/-- A query-parameter value: the servers pass strings and ints
(`_count` is an int) to `requests.get(params=...)`. -/
inductive PValue where
  | s (v : String)
  | i (n : Int)
deriving DecidableEq

/-- One outbound HTTP request, as handed to the `requests` library:
`params` is the `params=` keyword argument of `requests.get`, `formData` the
`data=` argument of `requests.post`. -/
structure HttpRequest where
  method : String
  url : String
  headers : List (String × String)
  params : List (String × PValue)
  formData : List (String × String)

/-- What the world answers to one HTTP request: a response with a status
code, parsed JSON body and raw text, or a transport-level
`requests.RequestException` carrying its text. -/
inductive HttpOutcome where
  | resp (status : Nat) (body : Json) (text : String)
  | netExn (text : String)

/-- A raised Python exception, by handler-relevant class:
`requests.RequestException` is caught by the dedicated network handler,
everything else (`ValueError`, `KeyError`, `TypeError`, ...) only by the
catch-all `except Exception`. -/
inductive PyError where
  | valueError (text : String)
  | requestException (text : String)
  | otherError (text : String)

/-- The `{success, data | error, message}` result envelope every tool
returns. Fields absent from a given Python dict literal are `none`. -/
structure Envelope where
  success : Bool
  data : Option Json
  error : Option String
  message : Option String

/-- Success envelope: `{"success": True, "data": ..., "message": ...}`. -/
def Envelope.ok (d : Json) (msg : String) : Envelope :=
  ⟨true, some d, none, some msg⟩

/-- Failure envelope: `{"success": False, "error": ..., "message": ...}`. -/
def Envelope.fail (err msg : String) : Envelope :=
  ⟨false, none, some err, some msg⟩

/-- An envelope carries a `data` payload or both an `error` and a `message`. -/
def Envelope.wellFormed (e : Envelope) : Prop :=
  e.data.isSome ∨ (e.error.isSome ∧ e.message.isSome)

/-! ### base64 (`base64.b64encode(credentials.encode())`) -/

/-- UTF-8 encoding of one character (Python `str.encode()`). -/
def utf8Bytes (c : Char) : List Nat :=
  let n := c.toNat
  if n < 0x80 then [n]
  else if n < 0x800 then
    [0xC0 ||| (n >>> 6), 0x80 ||| (n &&& 0x3F)]
  else if n < 0x10000 then
    [0xE0 ||| (n >>> 12), 0x80 ||| ((n >>> 6) &&& 0x3F), 0x80 ||| (n &&& 0x3F)]
  else
    [0xF0 ||| (n >>> 18), 0x80 ||| ((n >>> 12) &&& 0x3F),
     0x80 ||| ((n >>> 6) &&& 0x3F), 0x80 ||| (n &&& 0x3F)]

/-- UTF-8 bytes of a string. -/
def stringUtf8 (s : String) : List Nat :=
  s.data.foldr (fun c acc => utf8Bytes c ++ acc) []

/-- The base64 alphabet. -/
def base64Alphabet : List Char :=
  "ABCDEFGHIJKLMNOPQRSTUVWXYZabcdefghijklmnopqrstuvwxyz0123456789+/".data

/-- Character for one 6-bit group. -/
def b64Char (n : Nat) : Char := base64Alphabet.getD n '?'

/-- Standard base64 of a byte list, processed three bytes at a time with
`=` padding. -/
def base64Group : List Nat → String
  | [] => ""
  | [a] =>
    String.mk [b64Char (a >>> 2), b64Char ((a &&& 3) <<< 4)] ++ "=="
  | [a, b] =>
    String.mk [b64Char (a >>> 2), b64Char (((a &&& 3) <<< 4) ||| (b >>> 4)),
      b64Char ((b &&& 15) <<< 2)] ++ "="
  | a :: b :: c :: rest =>
    String.mk [b64Char (a >>> 2), b64Char (((a &&& 3) <<< 4) ||| (b >>> 4)),
      b64Char (((b &&& 15) <<< 2) ||| (c >>> 6)), b64Char (c &&& 63)] ++
      base64Group rest

/-- Python `base64.b64encode(s.encode()).decode()`. -/
def b64encode (s : String) : String := base64Group (stringUtf8 s)

/-! ### FHIR server: configuration, token manager (`fhir_server.py`) -/

/-- The FHIR module's configuration globals, as set by `main()`. -/
structure FhirConfig where
  FHIR_API_BASE_URL : String
  FHIR_CLIENT_ID : Option String
  FHIR_CLIENT_SECRET : Option String
  FHIR_TENANT_ID : String

/-- The token-cache globals `ACCESS_TOKEN` and `TOKEN_EXPIRES_AT`
(initially `None` and `0`). -/
structure TokenState where
  ACCESS_TOKEN : Option String
  TOKEN_EXPIRES_AT : Int

/-- The fixed token endpoint URL. -/
def TOKEN_ENDPOINT : String :=
  "https://authorization.cerner.com/tenants/ec2458f2-1e24-41c8-b71b-0e701af7583d/hosts/fhir-ehr.cerner.com/protocols/oauth2/profiles/smart-v1/token"

/-- Python falsiness of an optional string global: `None` or `""`. -/
def falsyOptStr : Option String → Bool
  | none => true
  | some s => s == ""

/-- The fixed OAuth scope string sent with every token request. -/
def fhirScope : String :=
  "system/Patient.rs system/Observation.rs system/Condition.rs system/MedicationRequest.rs"

/-- The token POST built by `get_access_token`: Basic-auth header from
`base64(id:secret)`, form body holding only `grant_type` and `scope`.
The `getD ""` reads are guarded: the caller checked both credentials are
set and non-empty. -/
def tokenRequest (cfg : FhirConfig) : HttpRequest :=
  let credentials := cfg.FHIR_CLIENT_ID.getD "" ++ ":" ++ cfg.FHIR_CLIENT_SECRET.getD ""
  { method := "POST"
    url := TOKEN_ENDPOINT
    headers := [("Content-Type", "application/x-www-form-urlencoded"),
                ("Accept", "application/json"),
                ("Authorization", "Basic " ++ b64encode credentials)]
    params := []
    formData := [("grant_type", "client_credentials"), ("scope", fhirScope)] }

/-- The cache-freshness test on line 48 of `fhir_server.py`:
`ACCESS_TOKEN and time.time() < (TOKEN_EXPIRES_AT - 300)`. -/
def tokenValid (st : TokenState) (now : Int) : Bool :=
  !falsyOptStr st.ACCESS_TOKEN && decide (now < st.TOKEN_EXPIRES_AT - 300)

/-- `get_access_token()`: returns the token and the updated cache, or the
raised exception; second component is the list of HTTP requests issued.
On a 200 answer whose `expires_in` is present but non-numeric the source
would leave the globals half-updated before the `TypeError`; that branch is
modelled as the error alone (no claim touches it). -/
def get_access_token (cfg : FhirConfig) (st : TokenState) (now : Int)
    (world : HttpRequest → HttpOutcome) :
    Except PyError (String × TokenState) × List HttpRequest :=
  if falsyOptStr cfg.FHIR_CLIENT_ID || falsyOptStr cfg.FHIR_CLIENT_SECRET then
    (.error (.valueError
      "FHIR client ID and client secret must be provided via command line arguments"), [])
  else if tokenValid st now then
    (.ok (st.ACCESS_TOKEN.getD "", st), [])
  else
    let req := tokenRequest cfg
    match world req with
    | .resp status body text =>
      if status = 200 then
        match body.get? "access_token" with
        | some (.str token) =>
          match body.get? "expires_in" with
          | some (.num n) =>
            (.ok (token, ⟨some token, now + n⟩), [req])
          | none =>
            (.ok (token, ⟨some token, now + 3600⟩), [req])
          | some _ => (.error (.otherError "TypeError: expires_in"), [req])
        | some _ => (.error (.otherError "TypeError: access_token"), [req])
        | none => (.error (.otherError "KeyError: access_token"), [req])
      else
        (.error (.requestException
          ("Failed to obtain access token: Token request failed: HTTP "
            ++ toString status ++ ": " ++ text)), [req])
    | .netExn text =>
      (.error (.requestException ("Failed to obtain access token: " ++ text)), [req])

/-- The Bearer headers built by `get_auth_headers`. -/
def bearerHeaders (access_token : String) : List (String × String) :=
  [("Authorization", "Bearer " ++ access_token),
   ("Accept", "application/fhir+json"),
   ("Content-Type", "application/fhir+json")]

/-- `get_auth_headers()`. -/
def get_auth_headers (cfg : FhirConfig) (st : TokenState) (now : Int)
    (world : HttpRequest → HttpOutcome) :
    Except PyError (List (String × String) × TokenState) × List HttpRequest :=
  match get_access_token cfg st now world with
  | (.ok (tok, st'), reqs) => (.ok (bearerHeaders tok, st'), reqs)
  | (.error e, reqs) => (.error e, reqs)

/-! ### FHIR request gateway and tools -/

/-- URL building on line 111: `{base}/{tenant}/{endpoint}`. -/
def fhirUrl (cfg : FhirConfig) (endpoint : String) : String :=
  cfg.FHIR_API_BASE_URL ++ "/" ++ cfg.FHIR_TENANT_ID ++ "/" ++ endpoint

/-- The authenticated GET issued by `make_fhir_request` once headers are in
hand. -/
def fhirGetReq (cfg : FhirConfig) (access_token : String) (endpoint : String)
    (params : List (String × PValue)) : HttpRequest :=
  { method := "GET", url := fhirUrl cfg endpoint,
    headers := bearerHeaders access_token, params := params, formData := [] }

/-- The `if`/`elif` chain of `make_fhir_request` mapping the HTTP response
to an envelope (lines 116-145). -/
def fhirResponseEnvelope : HttpOutcome → Envelope
  | .resp status body text =>
    if status = 200 then
      Envelope.ok body "FHIR data retrieved successfully"
    else if status = 401 then
      Envelope.fail
        "Authentication failed. Please check your FHIR client credentials and token."
        "Unauthorized access to FHIR API"
    else if status = 404 then
      Envelope.fail "Resource not found" "The requested FHIR resource was not found"
    else
      Envelope.fail ("HTTP " ++ toString status ++ ": " ++ text)
        "Failed to retrieve FHIR data"
  | .netExn text =>
    Envelope.fail text "Network error occurred while accessing FHIR API"

/-- The two `except` clauses of `make_fhir_request` (lines 140-151): a
`requests.RequestException` gets the network message, any other exception
the catch-all message. -/
def fhirExceptionEnvelope : PyError → Envelope
  | .requestException text =>
    Envelope.fail text "Network error occurred while accessing FHIR API"
  | .valueError text => Envelope.fail text "Unexpected error occurred"
  | .otherError text => Envelope.fail text "Unexpected error occurred"

/-- `make_fhir_request(endpoint, params)`: returns the envelope, the token
cache after the call, and the HTTP requests issued (token POST, then the
resource GET). -/
def make_fhir_request (cfg : FhirConfig) (st : TokenState) (now : Int)
    (world : HttpRequest → HttpOutcome) (endpoint : String)
    (params : List (String × PValue)) :
    Envelope × TokenState × List HttpRequest :=
  match get_auth_headers cfg st now world with
  | (.error e, reqs) => (fhirExceptionEnvelope e, st, reqs)
  | (.ok (headers, st'), reqs) =>
    let req : HttpRequest :=
      { method := "GET", url := fhirUrl cfg endpoint, headers := headers,
        params := params, formData := [] }
    (fhirResponseEnvelope (world req), st', reqs ++ [req])

/-- `if value:` guard adding one optional string query parameter. -/
def optStrParam (key : String) (v : Option String) : List (String × PValue) :=
  match v with
  | some s => if s == "" then [] else [(key, .s s)]
  | none => []

/-- `if count: params["_count"] = min(count, 100)` — note `count=0` is
falsy in Python and adds nothing. -/
def optCountParam (count : Option Int) : List (String × PValue) :=
  match count with
  | some n => if n == 0 then [] else [("_count", .i (min n 100))]
  | none => []

/-- `get_patient_by_id`. -/
def get_patient_by_id (cfg : FhirConfig) (st : TokenState) (now : Int)
    (world : HttpRequest → HttpOutcome) (patient_id : String) :
    Envelope × TokenState × List HttpRequest :=
  make_fhir_request cfg st now world ("Patient/" ++ patient_id) []

/-- The `params` dict built by `search_patients_by_name` (lines 185-192),
in insertion order. -/
def search_patients_by_name_params (given_name family_name : Option String)
    (count : Option Int) : List (String × PValue) :=
  optStrParam "given" given_name ++ optStrParam "family" family_name
    ++ optCountParam count

/-- The local-validation envelope of the name search. -/
def invalidNameSearchEnvelope : Envelope :=
  Envelope.fail
    "At least one search parameter (given_name or family_name) must be provided"
    "Invalid search parameters"

/-- `search_patients_by_name`: builds the params (count included), then
checks `if not params` — only afterwards — and otherwise delegates. -/
def search_patients_by_name (cfg : FhirConfig) (st : TokenState) (now : Int)
    (world : HttpRequest → HttpOutcome) (given_name family_name : Option String)
    (count : Option Int) : Envelope × TokenState × List HttpRequest :=
  let params := search_patients_by_name_params given_name family_name count
  if params.isEmpty then (invalidNameSearchEnvelope, st, [])
  else make_fhir_request cfg st now world "Patient" params

/-- The `params` dict of `search_patients_by_identifier`. -/
def search_patients_by_identifier_params (identifier_type identifier_value : String)
    (count : Option Int) : List (String × PValue) :=
  [("identifier", .s (identifier_type ++ "|" ++ identifier_value))] ++ optCountParam count

/-- `search_patients_by_identifier`. -/
def search_patients_by_identifier (cfg : FhirConfig) (st : TokenState) (now : Int)
    (world : HttpRequest → HttpOutcome) (identifier_type identifier_value : String)
    (count : Option Int) : Envelope × TokenState × List HttpRequest :=
  make_fhir_request cfg st now world "Patient"
    (search_patients_by_identifier_params identifier_type identifier_value count)

/-- The `params` dict of `search_patients_by_birthdate`. -/
def search_patients_by_birthdate_params (birthdate : String) (count : Option Int) :
    List (String × PValue) :=
  [("birthdate", .s birthdate)] ++ optCountParam count

/-- `search_patients_by_birthdate`. -/
def search_patients_by_birthdate (cfg : FhirConfig) (st : TokenState) (now : Int)
    (world : HttpRequest → HttpOutcome) (birthdate : String) (count : Option Int) :
    Envelope × TokenState × List HttpRequest :=
  make_fhir_request cfg st now world "Patient"
    (search_patients_by_birthdate_params birthdate count)

/-- The `params` dict of `search_patients_by_phone`. -/
def search_patients_by_phone_params (phone_number : String) (count : Option Int) :
    List (String × PValue) :=
  [("phone", .s phone_number)] ++ optCountParam count

/-- `search_patients_by_phone`. -/
def search_patients_by_phone (cfg : FhirConfig) (st : TokenState) (now : Int)
    (world : HttpRequest → HttpOutcome) (phone_number : String) (count : Option Int) :
    Envelope × TokenState × List HttpRequest :=
  make_fhir_request cfg st now world "Patient"
    (search_patients_by_phone_params phone_number count)

/-- The `params` dict of `search_patients_by_email`. -/
def search_patients_by_email_params (email : String) (count : Option Int) :
    List (String × PValue) :=
  [("email", .s email)] ++ optCountParam count

/-- `search_patients_by_email`. -/
def search_patients_by_email (cfg : FhirConfig) (st : TokenState) (now : Int)
    (world : HttpRequest → HttpOutcome) (email : String) (count : Option Int) :
    Envelope × TokenState × List HttpRequest :=
  make_fhir_request cfg st now world "Patient"
    (search_patients_by_email_params email count)

/-- The `params` dict built by `search_patients_by_address`
(lines 326-336), count included before the emptiness check. -/
def search_patients_by_address_params (postal_code city state : Option String)
    (count : Option Int) : List (String × PValue) :=
  optStrParam "address-postalcode" postal_code ++ optStrParam "address-city" city
    ++ optStrParam "address-state" state ++ optCountParam count

/-- The local-validation envelope of the address search. -/
def invalidAddressSearchEnvelope : Envelope :=
  Envelope.fail
    "At least one address parameter (postal_code, city, or state) must be provided"
    "Invalid search parameters"

/-- `search_patients_by_address`. -/
def search_patients_by_address (cfg : FhirConfig) (st : TokenState) (now : Int)
    (world : HttpRequest → HttpOutcome) (postal_code city state : Option String)
    (count : Option Int) : Envelope × TokenState × List HttpRequest :=
  let params := search_patients_by_address_params postal_code city state count
  if params.isEmpty then (invalidAddressSearchEnvelope, st, [])
  else make_fhir_request cfg st now world "Patient" params

/-- The `params` dict of `get_patient_observations`. -/
def get_patient_observations_params (patient_id : String) (count : Option Int) :
    List (String × PValue) :=
  [("subject", .s ("Patient/" ++ patient_id))] ++ optCountParam count

/-- `get_patient_observations`. -/
def get_patient_observations (cfg : FhirConfig) (st : TokenState) (now : Int)
    (world : HttpRequest → HttpOutcome) (patient_id : String) (count : Option Int) :
    Envelope × TokenState × List HttpRequest :=
  make_fhir_request cfg st now world "Observation"
    (get_patient_observations_params patient_id count)

/-- The `params` dict of `get_patient_conditions`. -/
def get_patient_conditions_params (patient_id : String) (count : Option Int) :
    List (String × PValue) :=
  [("patient", .s ("Patient/" ++ patient_id))] ++ optCountParam count

/-- `get_patient_conditions`. -/
def get_patient_conditions (cfg : FhirConfig) (st : TokenState) (now : Int)
    (world : HttpRequest → HttpOutcome) (patient_id : String) (count : Option Int) :
    Envelope × TokenState × List HttpRequest :=
  make_fhir_request cfg st now world "Condition"
    (get_patient_conditions_params patient_id count)

/-- The `params` dict of `get_patient_medications`. -/
def get_patient_medications_params (patient_id : String) (count : Option Int) :
    List (String × PValue) :=
  [("patient", .s ("Patient/" ++ patient_id))] ++ optCountParam count

/-- `get_patient_medications`. -/
def get_patient_medications (cfg : FhirConfig) (st : TokenState) (now : Int)
    (world : HttpRequest → HttpOutcome) (patient_id : String) (count : Option Int) :
    Envelope × TokenState × List HttpRequest :=
  make_fhir_request cfg st now world "MedicationRequest"
    (get_patient_medications_params patient_id count)

/-- `get_fhir_capabilities`. -/
def get_fhir_capabilities (cfg : FhirConfig) (st : TokenState) (now : Int)
    (world : HttpRequest → HttpOutcome) : Envelope × TokenState × List HttpRequest :=
  make_fhir_request cfg st now world "metadata" []

/-! ### NPI server (`npi_server.py`) -/

/-- Base URL for the NPI Registry API. -/
def NPI_API_BASE_URL : String := "https://npiregistry.cms.hhs.gov/api/"

/-- An anonymous GET to a fully-built URL (the NPI server encodes the query
string into the URL itself and passes no headers or params). -/
def npiGet (url : String) : HttpRequest :=
  { method := "GET", url := url, headers := [], params := [], formData := [] }

/-- `"&".join(...)` over the formatted parameter parts. -/
def joinParts : List String → String
  | [] => ""
  | [p] => p
  | p :: rest => p ++ "&" ++ joinParts rest

/-- `if city:` guard adding one optional string parameter of the NPI
searches. -/
def optLocParam (key : String) (v : Option String) : List (String × String) :=
  match v with
  | some s => if s == "" then [] else [(key, s)]
  | none => []

/-- Lines 89-91: `param_string = "&".join(f"{key}={value}" for ...)` and
`url = f"{NPI_API_BASE_URL}?{param_string}"` — raw concatenation, no
percent-encoding. -/
def npiQueryUrl (params : List (String × String)) : String :=
  NPI_API_BASE_URL ++ "?" ++ joinParts (params.map (fun kv => kv.1 ++ "=" ++ kv.2))

/-- `len(data.get('results', []))` with Python semantics: default `[]` when
the key is absent, `none` when `len` would raise `TypeError` (non-sized
value) or `.get` would raise `AttributeError` (non-dict body). -/
def resultsLen? (body : Json) : Option Nat :=
  match body with
  | .obj _ =>
    match body.get? "results" with
    | none => some 0
    | some j => j.pyLen?
  | _ => none

/-- Failure envelope produced by a catch-all `except Exception` handler;
the exception text is abstracted (the claims never reach these branches). -/
def unexpectedEnvelope (text : String) : Envelope :=
  Envelope.fail text "Unexpected error occurred"

/-- `search_npi_by_number`: returns the envelope and the requests issued. -/
def search_npi_by_number (world : HttpRequest → HttpOutcome)
    (npi_number : String) : Envelope × List HttpRequest :=
  let req := npiGet (NPI_API_BASE_URL ++ "?number=" ++ npi_number ++ "&version=2.1")
  match world req with
  | .resp status body text =>
    if status = 200 then
      (Envelope.ok body "NPI data retrieved successfully", [req])
    else
      (Envelope.fail ("HTTP " ++ toString status ++ ": " ++ text)
        "Failed to retrieve NPI data", [req])
  | .netExn text =>
    (Envelope.fail text "Network error occurred while fetching NPI data", [req])

/-- The `params` dict of `search_npi_by_name`, in insertion order:
required names first, then `version`, then the optional location filters. -/
def search_npi_by_name_params (first_name last_name : String)
    (city state : Option String) : List (String × String) :=
  [("first_name", first_name), ("last_name", last_name), ("version", "2.1")]
    ++ optLocParam "city" city ++ optLocParam "state" state

/-- `search_npi_by_name`. -/
def search_npi_by_name (world : HttpRequest → HttpOutcome)
    (first_name last_name : String) (city state : Option String) :
    Envelope × List HttpRequest :=
  let req := npiGet (npiQueryUrl (search_npi_by_name_params first_name last_name city state))
  match world req with
  | .resp status body text =>
    if status = 200 then
      match resultsLen? body with
      | some n =>
        (Envelope.ok body
          ("Found " ++ toString n ++ " provider(s) matching search criteria"), [req])
      | none => (unexpectedEnvelope "TypeError", [req])
    else
      (Envelope.fail ("HTTP " ++ toString status ++ ": " ++ text)
        "Failed to search NPI database", [req])
  | .netExn text =>
    (Envelope.fail text "Network error occurred while searching NPI database", [req])

/-- The `params` dict of `search_npi_by_taxonomy`, in insertion order. -/
def search_npi_by_taxonomy_params (taxonomy_description : String)
    (city state : Option String) : List (String × String) :=
  [("taxonomy_description", taxonomy_description), ("version", "2.1")]
    ++ optLocParam "city" city ++ optLocParam "state" state

/-- `search_npi_by_taxonomy`. -/
def search_npi_by_taxonomy (world : HttpRequest → HttpOutcome)
    (taxonomy_description : String) (city state : Option String) :
    Envelope × List HttpRequest :=
  let req := npiGet (npiQueryUrl (search_npi_by_taxonomy_params taxonomy_description city state))
  match world req with
  | .resp status body text =>
    if status = 200 then
      match resultsLen? body with
      | some n =>
        (Envelope.ok body
          ("Found " ++ toString n ++ " provider(s) with taxonomy '"
            ++ taxonomy_description ++ "'"), [req])
      | none => (unexpectedEnvelope "TypeError", [req])
    else
      (Envelope.fail ("HTTP " ++ toString status ++ ": " ++ text)
        "Failed to search NPI database by taxonomy", [req])
  | .netExn text =>
    (Envelope.fail text "Network error occurred while searching NPI database", [req])

/-- The `params` dict of `search_npi_by_organization_name`. -/
def search_npi_by_organization_name_params (organization_name : String)
    (city state : Option String) : List (String × String) :=
  [("organization_name", organization_name), ("version", "2.1")]
    ++ optLocParam "city" city ++ optLocParam "state" state

/-- `search_npi_by_organization_name`. -/
def search_npi_by_organization_name (world : HttpRequest → HttpOutcome)
    (organization_name : String) (city state : Option String) :
    Envelope × List HttpRequest :=
  let req := npiGet (npiQueryUrl (search_npi_by_organization_name_params organization_name city state))
  match world req with
  | .resp status body text =>
    if status = 200 then
      match resultsLen? body with
      | some n =>
        (Envelope.ok body
          ("Found " ++ toString n ++ " organization(s) matching '"
            ++ organization_name ++ "'"), [req])
      | none => (unexpectedEnvelope "TypeError", [req])
    else
      (Envelope.fail ("HTTP " ++ toString status ++ ": " ++ text)
        "Failed to search NPI database for organization", [req])
  | .netExn text =>
    (Envelope.fail text "Network error occurred while searching NPI database", [req])

/-- The flattened record built on lines 261-279 from the first result
`provider`, its `basic` sub-dict (`provider.get("basic", {})`) and the two
name strings read from `basic` — given that those accesses succeeded. -/
def provider_details_record (provider basic : Json)
    (first_name last_name : String) : Json :=
  .obj [
    ("basic_info", .obj [
      ("npi", provider.getD "number" .null),
      ("entity_type", provider.getD "enumeration_type" .null),
      ("name", .str (first_name ++ " " ++ last_name)),
      ("organization_name", basic.getD "organization_name" .null),
      ("credential", basic.getD "credential" .null),
      ("sole_proprietor", basic.getD "sole_proprietor" .null),
      ("gender", basic.getD "gender" .null),
      ("enumeration_date", basic.getD "enumeration_date" .null),
      ("last_updated", basic.getD "last_updated" .null),
      ("certification_date", basic.getD "certification_date" .null),
      ("status", basic.getD "status" .null)]),
    ("addresses", provider.getD "addresses" (.arr [])),
    ("taxonomies", provider.getD "taxonomies" (.arr [])),
    ("identifiers", provider.getD "identifiers" (.arr [])),
    ("other_names", provider.getD "other_names" (.arr []))]

/-- The reshape of lines 261-279, including its failure modes: Python calls
`provider.get(...)` (raising `AttributeError` when the first result is not
a dict), `provider.get("basic", {}).get(...)` (raising `AttributeError`
when a present `basic` is not a dict), and concatenates the two name fields
(raising `TypeError` when a present name field is not a string). `none`
encodes those raises, which the caller's catch-all handler turns into the
"Unexpected error occurred" Failure envelope; `some` is the flattened
record. -/
def provider_details? (provider : Json) : Option Json :=
  match provider with
  | .obj _ =>
    let basic := provider.getD "basic" (.obj [])
    match basic with
    | .obj _ =>
      match basic.getStrD? "first_name", basic.getStrD? "last_name" with
      | some first_name, some last_name =>
        some (provider_details_record provider basic first_name last_name)
      | _, _ => none
    | _ => none
  | _ => none

/-- The "not found" envelope of `get_provider_details`. -/
def providerNotFoundEnvelope : Envelope :=
  Envelope.fail "No provider found with the given NPI number" "Provider not found"

/-- `get_provider_details`: on 200, the guard
`data.get("results") and len(data["results"]) > 0` selects the first result
for reshaping; an empty or absent (or falsy) `results` takes the
"not found" branch; a truthy non-list `results`, a non-dict body, or a
first result on which the reshape raises (see `provider_details?`) lands in
the catch-all handler (exception texts abstracted). -/
def get_provider_details (world : HttpRequest → HttpOutcome)
    (npi_number : String) : Envelope × List HttpRequest :=
  let req := npiGet (NPI_API_BASE_URL ++ "?number=" ++ npi_number ++ "&version=2.1")
  match world req with
  | .resp status body text =>
    if status = 200 then
      match body with
      | .obj _ =>
        match body.get? "results" with
        | some (.arr (provider :: _)) =>
          (match provider_details? provider with
            | some details =>
              (Envelope.ok details "Provider details retrieved successfully", [req])
            | none => (unexpectedEnvelope "AttributeError", [req]))
        | some (.arr []) => (providerNotFoundEnvelope, [req])
        | none => (providerNotFoundEnvelope, [req])
        | some j =>
          if j.pyTruthy then (unexpectedEnvelope "TypeError", [req])
          else (providerNotFoundEnvelope, [req])
      | _ => (unexpectedEnvelope "AttributeError", [req])
    else
      (Envelope.fail ("HTTP " ++ toString status ++ ": " ++ text)
        "Failed to retrieve provider details", [req])
  | .netExn text =>
    (Envelope.fail text "Network error occurred while fetching provider details", [req])

/-! ### Shared concrete sample data (matching the test harness fixtures) -/

/-- A configured FHIR service, as the tests set it up. -/
def sampleCfg : FhirConfig :=
  ⟨"https://fhir-test.cerner.com/r4", some "test_client_id",
   some "test_client_secret", "test-tenant-id"⟩

/-- The startup configuration before `main` runs: no credentials. -/
def noCredsCfg : FhirConfig :=
  ⟨"https://fhir-ehr.cerner.com/r4", none, none, "ec2458f2-1e24-41c8-b71b-0e701af7583d"⟩

/-- The initial token cache: no token, expiry 0. -/
def emptyTokenState : TokenState := ⟨none, 0⟩

/-- A cache holding a token valid far into the future. -/
def freshTokenState : TokenState := ⟨some "cachedtok", 100000⟩

/-- A world where every request succeeds with an empty JSON object. -/
def okWorld : HttpRequest → HttpOutcome := fun _ => .resp 200 (.obj []) ""

/-- A world where the token POST fails with HTTP 500 and everything else
succeeds. -/
def tokenFailWorld : HttpRequest → HttpOutcome := fun r =>
  if r.method == "POST" then .resp 500 .null "boom" else .resp 200 (.obj []) ""

/-- A world answering every request with HTTP 404. -/
def world404 : HttpRequest → HttpOutcome := fun _ => .resp 404 .null "Not Found"

/-- A token response body with no `expires_in`. -/
def tokenOkBody : Json := .obj [("access_token", .str "tok123")]

/-- A world answering every request with `tokenOkBody`. -/
def tokenOkWorld : HttpRequest → HttpOutcome := fun _ => .resp 200 tokenOkBody ""

/-- An NPI response body whose `results` array is empty. -/
def npiEmptyBody : Json := .obj [("results", .arr [])]

/-- A world answering every request with the empty-results NPI body. -/
def npiEmptyWorld : HttpRequest → HttpOutcome := fun _ => .resp 200 npiEmptyBody ""

/-- The `basic` sub-dict of the sample NPI provider record. -/
def npiProviderBasic : Json :=
  .obj [("first_name", .str "JANE"), ("last_name", .str "DOE")]

/-- A sample NPI provider record. -/
def npiProvider : Json :=
  .obj [("number", .str "1234567890"), ("basic", npiProviderBasic)]

/-- An NPI response body holding one provider. -/
def npiOneBody : Json := .obj [("results", .arr [npiProvider])]

/-- A world answering every request with the one-provider NPI body. -/
def npiOneWorld : HttpRequest → HttpOutcome := fun _ => .resp 200 npiOneBody ""

/-- An NPI response whose non-empty `results` holds a non-dict first
element. -/
def npiBadBody : Json := .obj [("results", .arr [.num 5])]

/-- A world answering every request with the malformed-results NPI body. -/
def npiBadWorld : HttpRequest → HttpOutcome := fun _ => .resp 200 npiBadBody ""

/-! ### Helper lemmas -/

theorem falsyOptStr_eq_false {o : Option String} {s : String}
    (h : o = some s) (h' : s ≠ "") : falsyOptStr o = false := by
  subst h; simp [falsyOptStr, h']

theorem get_access_token_of_valid (cfg : FhirConfig) (st : TokenState) (now : Int)
    (world : HttpRequest → HttpOutcome) (tok : String)
    (hid : falsyOptStr cfg.FHIR_CLIENT_ID = false)
    (hcs : falsyOptStr cfg.FHIR_CLIENT_SECRET = false)
    (htv : tokenValid st now = true)
    (htok : st.ACCESS_TOKEN = some tok) :
    get_access_token cfg st now world = (.ok (tok, st), []) := by
  unfold get_access_token
  simp [hid, hcs, htv, htok]

theorem get_access_token_refresh_requests (cfg : FhirConfig) (st : TokenState)
    (now : Int) (world : HttpRequest → HttpOutcome)
    (hid : falsyOptStr cfg.FHIR_CLIENT_ID = false)
    (hcs : falsyOptStr cfg.FHIR_CLIENT_SECRET = false)
    (htv : tokenValid st now = false) :
    (get_access_token cfg st now world).2 = [tokenRequest cfg] := by
  unfold get_access_token
  simp only [hid, hcs, htv, Bool.or_self, Bool.false_eq_true, if_false]
  cases world (tokenRequest cfg) with
  | resp s b t =>
    simp only []
    split
    · split
      · split <;> rfl
      · rfl
      · rfl
    · rfl
  | netExn t => rfl

theorem make_fhir_request_of_valid (cfg : FhirConfig) (st : TokenState) (now : Int)
    (world : HttpRequest → HttpOutcome) (endpoint : String)
    (params : List (String × PValue)) (tok : String)
    (hid : falsyOptStr cfg.FHIR_CLIENT_ID = false)
    (hcs : falsyOptStr cfg.FHIR_CLIENT_SECRET = false)
    (htv : tokenValid st now = true)
    (htok : st.ACCESS_TOKEN = some tok) :
    make_fhir_request cfg st now world endpoint params =
      (fhirResponseEnvelope (world (fhirGetReq cfg tok endpoint params)), st,
        [fhirGetReq cfg tok endpoint params]) := by
  unfold make_fhir_request get_auth_headers
  rw [get_access_token_of_valid cfg st now world tok hid hcs htv htok]
  rfl

/-! ### Claim C3 -/

/-- Claim C3 counterexample: the claim's reuse biconditional fails when the
credentials are not configured. With no credentials but a cached token whose
expiry is far in the future (`now = 0`, expiry `100000`), `get_access_token`
does not reuse the cached token: it raises `ValueError` (and issues no HTTP
request), whereas the claim demands reuse whenever a cached token exists and
`now < expiry - 300`. -/
theorem C3_counterexample :
    get_access_token noCredsCfg freshTokenState 0 okWorld =
      (.error (.valueError
        "FHIR client ID and client secret must be provided via command line arguments"),
       []) ∧
    (get_access_token noCredsCfg freshTokenState 0 okWorld).1 ≠
      .ok ("cachedtok", freshTokenState) := by
  constructor
  · rfl
  · intro h
    simp [get_access_token, noCredsCfg, falsyOptStr] at h

/-- Claim C3 (amended): provided the client credentials are configured
(non-`None`, non-empty), `get_access_token` reuses the cached token if and
only if a cached token exists and `now < expiry - 300`: in that case it
returns the cached token, leaves the cache unchanged and issues no HTTP
request, and in every other case it issues exactly one POST to the token
endpoint before returning. When credentials are missing, it instead raises
`ValueError` without issuing any request, regardless of the cache. -/
theorem C3_amended_token_reuse_iff (cfg : FhirConfig) (st : TokenState) (now : Int)
    (world : HttpRequest → HttpOutcome) (cid cs : String)
    (hid : cfg.FHIR_CLIENT_ID = some cid) (hid' : cid ≠ "")
    (hcs : cfg.FHIR_CLIENT_SECRET = some cs) (hcs' : cs ≠ "") :
    (∀ tok, st.ACCESS_TOKEN = some tok → tokenValid st now = true →
      get_access_token cfg st now world = (.ok (tok, st), [])) ∧
    (tokenValid st now = false →
      (get_access_token cfg st now world).2 = [tokenRequest cfg] ∧
      (tokenRequest cfg).method = "POST" ∧
      (tokenRequest cfg).url = TOKEN_ENDPOINT) := by
  refine ⟨fun tok htok htv => ?_, fun htv => ⟨?_, rfl, rfl⟩⟩
  · exact get_access_token_of_valid cfg st now world tok
      (falsyOptStr_eq_false hid hid') (falsyOptStr_eq_false hcs hcs') htv htok
  · exact get_access_token_refresh_requests cfg st now world
      (falsyOptStr_eq_false hid hid') (falsyOptStr_eq_false hcs hcs') htv

/-- Claim C3 witness: with test credentials and a fresh cached token, the
second accessor call returns the cached token with no HTTP request; with the
initial empty cache, it issues exactly the token POST. -/
theorem C3_amended_token_reuse_iff_witness :
    (get_access_token sampleCfg freshTokenState 0 okWorld =
      (.ok ("cachedtok", freshTokenState), [])) ∧
    (get_access_token sampleCfg emptyTokenState 0 okWorld).2 =
      [tokenRequest sampleCfg] := by
  refine ⟨(C3_amended_token_reuse_iff sampleCfg freshTokenState 0 okWorld
      "test_client_id" "test_client_secret" rfl (by decide) rfl (by decide)).1
      "cachedtok" rfl (by decide),
    ((C3_amended_token_reuse_iff sampleCfg emptyTokenState 0 okWorld
      "test_client_id" "test_client_secret" rfl (by decide) rfl (by decide)).2
      (by decide)).1⟩

/-! ### Claim C4 -/

/-- Claim C4 (confirmed): when the cache is stale or absent and the token
endpoint answers HTTP 200, `get_access_token` stores the parsed
`access_token`, sets the absolute expiry to `now + expires_in` — with
`expires_in` defaulting to 3600 when absent from the response — and returns
that token. -/
theorem C4_token_refresh_stores_token (cfg : FhirConfig) (st : TokenState)
    (now : Int) (world : HttpRequest → HttpOutcome) (cid cs t : String)
    (body : Json) (text : String)
    (hid : cfg.FHIR_CLIENT_ID = some cid) (hid' : cid ≠ "")
    (hcs : cfg.FHIR_CLIENT_SECRET = some cs) (hcs' : cs ≠ "")
    (htv : tokenValid st now = false)
    (hresp : world (tokenRequest cfg) = .resp 200 body text)
    (htok : body.get? "access_token" = some (.str t)) :
    (∀ e : Int, body.get? "expires_in" = some (.num e) →
      get_access_token cfg st now world =
        (.ok (t, ⟨some t, now + e⟩), [tokenRequest cfg])) ∧
    (body.get? "expires_in" = none →
      get_access_token cfg st now world =
        (.ok (t, ⟨some t, now + 3600⟩), [tokenRequest cfg])) := by
  have hid2 := falsyOptStr_eq_false hid hid'
  have hcs2 := falsyOptStr_eq_false hcs hcs'
  constructor
  · intro e hexp
    unfold get_access_token
    simp [hid2, hcs2, htv, hresp, htok, hexp]
  · intro hexp
    unfold get_access_token
    simp [hid2, hcs2, htv, hresp, htok, hexp]

/-- Claim C4 witness: from the initial empty cache at `now = 1000`, a 200
answer carrying `access_token = "tok123"` and no `expires_in` yields the
token with expiry `1000 + 3600`. -/
theorem C4_token_refresh_stores_token_witness :
    get_access_token sampleCfg emptyTokenState 1000 tokenOkWorld =
      (.ok ("tok123", ⟨some "tok123", 1000 + 3600⟩), [tokenRequest sampleCfg]) :=
  (C4_token_refresh_stores_token sampleCfg emptyTokenState 1000 tokenOkWorld
    "test_client_id" "test_client_secret" "tok123" tokenOkBody ""
    rfl (by decide) rfl (by decide) (by decide) rfl rfl).2 rfl

/-! ### Claim C5 -/

/-- Claim C5 (confirmed): whenever the cached token is absent or within 300
seconds of expiry, `get_access_token` issues exactly one POST, to the token
endpoint, whose `Authorization` header is `"Basic "` followed by
`base64(client_id ++ ":" ++ client_secret)`, and whose form body is exactly
`grant_type=client_credentials` and the fixed scope — a constant list that
does not mention the client credentials. -/
theorem C5_refresh_post_shape (cfg : FhirConfig) (st : TokenState) (now : Int)
    (world : HttpRequest → HttpOutcome) (cid cs : String)
    (hid : cfg.FHIR_CLIENT_ID = some cid) (hid' : cid ≠ "")
    (hcs : cfg.FHIR_CLIENT_SECRET = some cs) (hcs' : cs ≠ "")
    (htv : tokenValid st now = false) :
    (get_access_token cfg st now world).2 = [tokenRequest cfg] ∧
    (tokenRequest cfg).method = "POST" ∧
    (tokenRequest cfg).url = TOKEN_ENDPOINT ∧
    List.lookup "Authorization" (tokenRequest cfg).headers =
      some ("Basic " ++ b64encode (cid ++ ":" ++ cs)) ∧
    (tokenRequest cfg).formData =
      [("grant_type", "client_credentials"), ("scope", fhirScope)] := by
  refine ⟨get_access_token_refresh_requests cfg st now world
      (falsyOptStr_eq_false hid hid') (falsyOptStr_eq_false hcs hcs') htv,
    rfl, rfl, ?_, rfl⟩
  simp [tokenRequest, hid, hcs, List.lookup]

/-- Claim C5 witness: from the empty cache with the test credentials,
exactly the token POST is issued, with the Basic-auth header derived from
`test_client_id:test_client_secret` and the credential-free form body. -/
theorem C5_refresh_post_shape_witness :
    (get_access_token sampleCfg emptyTokenState 0 okWorld).2 =
      [tokenRequest sampleCfg] ∧
    List.lookup "Authorization" (tokenRequest sampleCfg).headers =
      some ("Basic " ++ b64encode ("test_client_id" ++ ":" ++ "test_client_secret")) ∧
    (tokenRequest sampleCfg).formData =
      [("grant_type", "client_credentials"), ("scope", fhirScope)] := by
  obtain ⟨h1, _, _, h4, h5⟩ := C5_refresh_post_shape sampleCfg emptyTokenState 0
    okWorld "test_client_id" "test_client_secret" rfl (by decide) rfl (by decide)
    (by decide)
  exact ⟨h1, h4, h5⟩

/-! ### Claim C1 -/

/-- Claim C1 counterexample: neither error escapes a FHIR tool invocation as
a raised error. With missing credentials, `make_fhir_request` returns a
`Failure` envelope (`message = "Unexpected error occurred"`) — the
`ValueError` raised by the token manager is swallowed by the gateway's
catch-all `except Exception`. With credentials configured and a token
endpoint answering HTTP 500, it likewise returns a `Failure` envelope
(`message = "Network error occurred while accessing FHIR API"`) — the
`RequestException` is swallowed by `except requests.exceptions.RequestException`. -/
theorem C1_counterexample :
    make_fhir_request noCredsCfg emptyTokenState 0 okWorld "Patient/123" [] =
      (Envelope.fail
        "FHIR client ID and client secret must be provided via command line arguments"
        "Unexpected error occurred", emptyTokenState, []) ∧
    make_fhir_request sampleCfg emptyTokenState 0 tokenFailWorld "Patient/123" [] =
      (Envelope.fail "Failed to obtain access token: Token request failed: HTTP 500: boom"
        "Network error occurred while accessing FHIR API", emptyTokenState,
        [tokenRequest sampleCfg]) := by
  constructor <;> rfl

/-- Claim C1 (amended): no failure mode escapes a FHIR tool invocation as a
raised error. Missing client credentials are caught by the gateway's
catch-all handler and surface as a `Failure` envelope with message
"Unexpected error occurred" and zero HTTP requests; a non-200 from the token
endpoint is caught by the gateway's `RequestException` handler and surfaces
as a `Failure` envelope with message "Network error occurred while accessing
FHIR API" after exactly the one token POST. (Validation, resource-endpoint
non-2xx, network failure and empty result sets are likewise returned as
`Failure` envelopes — see the other claims.) -/
theorem C1_amended_errors_become_envelopes (cfg : FhirConfig) (st : TokenState)
    (now : Int) (world : HttpRequest → HttpOutcome) (endpoint : String)
    (params : List (String × PValue)) :
    ((falsyOptStr cfg.FHIR_CLIENT_ID || falsyOptStr cfg.FHIR_CLIENT_SECRET) = true →
      make_fhir_request cfg st now world endpoint params =
        (Envelope.fail
          "FHIR client ID and client secret must be provided via command line arguments"
          "Unexpected error occurred", st, [])) ∧
    (∀ (cid cs : String) (status : Nat) (body : Json) (text : String),
      cfg.FHIR_CLIENT_ID = some cid → cid ≠ "" →
      cfg.FHIR_CLIENT_SECRET = some cs → cs ≠ "" →
      tokenValid st now = false →
      world (tokenRequest cfg) = .resp status body text → status ≠ 200 →
      make_fhir_request cfg st now world endpoint params =
        (Envelope.fail
          ("Failed to obtain access token: Token request failed: HTTP "
            ++ toString status ++ ": " ++ text)
          "Network error occurred while accessing FHIR API", st,
          [tokenRequest cfg])) := by
  constructor
  · intro h
    unfold make_fhir_request get_auth_headers get_access_token
    simp [h, fhirExceptionEnvelope]
  · intro cid cs status body text hid hid' hcs hcs' htv hresp hst
    unfold make_fhir_request get_auth_headers get_access_token
    simp [falsyOptStr_eq_false hid hid', falsyOptStr_eq_false hcs hcs', htv,
      hresp, hst, fhirExceptionEnvelope]

/-- Claim C1 witness: a concrete missing-credentials invocation returns the
catch-all `Failure` envelope. -/
theorem C1_amended_errors_become_envelopes_witness :
    make_fhir_request noCredsCfg freshTokenState 0 okWorld "metadata" [] =
      (Envelope.fail
        "FHIR client ID and client secret must be provided via command line arguments"
        "Unexpected error occurred", freshTokenState, []) :=
  (C1_amended_errors_become_envelopes noCredsCfg freshTokenState 0 okWorld
    "metadata" []).1 (by decide)

/-! ### Claim C6 -/

/-- Claim C6 (confirmed): with a valid cached token (so the gateway GET is
the only request), the envelope returned by `make_fhir_request` maps the
HTTP outcome exactly per the table: 200 is Success with the parsed body as
`data`; 401 is Failure with message "Unauthorized access to FHIR API"; 404
is Failure with error "Resource not found"; any other status is Failure
with error `HTTP {status}: {text}`; a transport exception is Failure with
the exception text as error and the network-error message. -/
theorem C6_status_mapping (cfg : FhirConfig) (st : TokenState) (now : Int)
    (world : HttpRequest → HttpOutcome) (endpoint : String)
    (params : List (String × PValue)) (cid cs tok : String)
    (hid : cfg.FHIR_CLIENT_ID = some cid) (hid' : cid ≠ "")
    (hcs : cfg.FHIR_CLIENT_SECRET = some cs) (hcs' : cs ≠ "")
    (htok : st.ACCESS_TOKEN = some tok)
    (htv : tokenValid st now = true) :
    (∀ (body : Json) (text : String),
      world (fhirGetReq cfg tok endpoint params) = .resp 200 body text →
      (make_fhir_request cfg st now world endpoint params).1 =
        Envelope.ok body "FHIR data retrieved successfully") ∧
    (∀ (body : Json) (text : String),
      world (fhirGetReq cfg tok endpoint params) = .resp 401 body text →
      (make_fhir_request cfg st now world endpoint params).1 =
        Envelope.fail
          "Authentication failed. Please check your FHIR client credentials and token."
          "Unauthorized access to FHIR API") ∧
    (∀ (body : Json) (text : String),
      world (fhirGetReq cfg tok endpoint params) = .resp 404 body text →
      (make_fhir_request cfg st now world endpoint params).1 =
        Envelope.fail "Resource not found"
          "The requested FHIR resource was not found") ∧
    (∀ (status : Nat) (body : Json) (text : String),
      world (fhirGetReq cfg tok endpoint params) = .resp status body text →
      status ≠ 200 → status ≠ 401 → status ≠ 404 →
      (make_fhir_request cfg st now world endpoint params).1 =
        Envelope.fail ("HTTP " ++ toString status ++ ": " ++ text)
          "Failed to retrieve FHIR data") ∧
    (∀ text : String,
      world (fhirGetReq cfg tok endpoint params) = .netExn text →
      (make_fhir_request cfg st now world endpoint params).1 =
        Envelope.fail text "Network error occurred while accessing FHIR API") := by
  have hmk := make_fhir_request_of_valid cfg st now world endpoint params tok
    (falsyOptStr_eq_false hid hid') (falsyOptStr_eq_false hcs hcs') htv htok
  refine ⟨fun body text hresp => ?_, fun body text hresp => ?_,
    fun body text hresp => ?_, fun status body text hresp h200 h401 h404 => ?_,
    fun text hresp => ?_⟩ <;>
    rw [hmk] <;> rw [hresp] <;> simp [fhirResponseEnvelope, *]

/-- Claim C6 witness: a 200 answer and a 404 answer produce exactly the
tabulated envelopes. -/
theorem C6_status_mapping_witness :
    (make_fhir_request sampleCfg freshTokenState 0 okWorld "Patient/123" []).1 =
      Envelope.ok (.obj []) "FHIR data retrieved successfully" ∧
    (make_fhir_request sampleCfg freshTokenState 0 world404 "Patient/999" []).1 =
      Envelope.fail "Resource not found" "The requested FHIR resource was not found" := by
  refine ⟨(C6_status_mapping sampleCfg freshTokenState 0 okWorld "Patient/123" []
      "test_client_id" "test_client_secret" "cachedtok" rfl (by decide) rfl
      (by decide) rfl (by decide)).1 (.obj []) "" rfl,
    (C6_status_mapping sampleCfg freshTokenState 0 world404 "Patient/999" []
      "test_client_id" "test_client_secret" "cachedtok" rfl (by decide) rfl
      (by decide) rfl (by decide)).2.2.1 .null "Not Found" rfl⟩

/-! ### Claim C2 -/

/-- Claim C2 (code bug): supplying only a `count` defeats the
zero-filter validation. Because both search tools insert `_count` into
`params` before the `if not params` check, calling the name search with no
name filters but `count=5` (resp. the address search with no address filters
but `count=7`) makes the parameter map non-empty, so the tool issues the
HTTP request — here, with a valid cached token, exactly one GET carrying
only `_count` — and returns the gateway's Success envelope instead of the
validation `Failure` envelope with zero requests that the code's own
comment ("At least one search parameter is required") and error message
call for. -/
theorem C2_code_bug_count_bypasses_validation :
    (search_patients_by_name sampleCfg freshTokenState 0 okWorld
        none none (some 5)).2.2 =
      [fhirGetReq sampleCfg "cachedtok" "Patient" [("_count", .i (min 5 100))]] ∧
    (search_patients_by_name sampleCfg freshTokenState 0 okWorld
        none none (some 5)).1.success = true ∧
    (search_patients_by_address sampleCfg freshTokenState 0 okWorld
        none none none (some 7)).2.2 =
      [fhirGetReq sampleCfg "cachedtok" "Patient" [("_count", .i (min 7 100))]] :=
  ⟨rfl, rfl, rfl⟩

/-! ### Claim C7 -/

/-- Claim C7 counterexample: the count cap claim fails for a supplied count
of 0, which is falsy in Python: `search_patients_by_name` with
`given_name="John"` and `count=0` builds a parameter map with no `_count`
key at all (rather than `_count = min(0, 100) = 0`), and the issued request
carries only the `given` parameter. -/
theorem C7_counterexample :
    search_patients_by_name_params (some "John") none (some 0) =
      [("given", .s "John")] ∧
    List.lookup "_count"
      (search_patients_by_name_params (some "John") none (some 0)) = none ∧
    (search_patients_by_name sampleCfg freshTokenState 0 okWorld
        (some "John") none (some 0)).2.2 =
      [fhirGetReq sampleCfg "cachedtok" "Patient" [("given", .s "John")]] :=
  ⟨rfl, rfl, rfl⟩

theorem lookup_count_optStrParam (k : String) (hk : ("_count" == k) = false)
    (v : Option String) (rest : List (String × PValue)) :
    List.lookup "_count" (optStrParam k v ++ rest) = List.lookup "_count" rest := by
  cases v with
  | none => simp [optStrParam]
  | some s =>
    simp only [optStrParam]
    split
    · simp
    · simp [List.lookup, hk]

theorem lookup_count_head (key : String) (hk : ("_count" == key) = false)
    (v : PValue) (rest : List (String × PValue)) :
    List.lookup "_count" ((key, v) :: rest) = List.lookup "_count" rest := by
  simp [List.lookup, hk]

theorem lookup_count_optCountParam (c : Int) (hc : (c == 0) = false) :
    List.lookup "_count" (optCountParam (some c)) = some (.i (min c 100)) := by
  simp [optCountParam, hc, List.lookup]

/-- Claim C7 (amended): for every FHIR search tool invocation that supplies
a nonzero count value, the `_count` entry of the parameter map sent with
the request equals `min(count, 100)`; in particular `count=150` produces
100, never 150 (see the witness). A supplied count of 0 is falsy in Python
and produces no `_count` entry at all. -/
theorem C7_amended_count_capped (c : Int) (hc : c ≠ 0) :
    (∀ given family, List.lookup "_count"
        (search_patients_by_name_params given family (some c)) =
      some (.i (min c 100))) ∧
    (∀ t v, List.lookup "_count"
        (search_patients_by_identifier_params t v (some c)) =
      some (.i (min c 100))) ∧
    (∀ b, List.lookup "_count" (search_patients_by_birthdate_params b (some c)) =
      some (.i (min c 100))) ∧
    (∀ p, List.lookup "_count" (search_patients_by_phone_params p (some c)) =
      some (.i (min c 100))) ∧
    (∀ e, List.lookup "_count" (search_patients_by_email_params e (some c)) =
      some (.i (min c 100))) ∧
    (∀ pc city stt, List.lookup "_count"
        (search_patients_by_address_params pc city stt (some c)) =
      some (.i (min c 100))) ∧
    (∀ pid, List.lookup "_count" (get_patient_observations_params pid (some c)) =
      some (.i (min c 100))) ∧
    (∀ pid, List.lookup "_count" (get_patient_conditions_params pid (some c)) =
      some (.i (min c 100))) ∧
    (∀ pid, List.lookup "_count" (get_patient_medications_params pid (some c)) =
      some (.i (min c 100))) := by
  have hc' : (c == 0) = false := by simp [hc]
  refine ⟨fun given family => ?_, fun t v => ?_, fun b => ?_, fun p => ?_,
    fun e => ?_, fun pc city stt => ?_, fun pid => ?_, fun pid => ?_, fun pid => ?_⟩
  · simp only [search_patients_by_name_params, List.append_assoc]
    rw [lookup_count_optStrParam _ (by decide), lookup_count_optStrParam _ (by decide),
      lookup_count_optCountParam c hc']
  · simp only [search_patients_by_identifier_params, List.singleton_append]
    rw [lookup_count_head _ (by decide), lookup_count_optCountParam c hc']
  · simp only [search_patients_by_birthdate_params, List.singleton_append]
    rw [lookup_count_head _ (by decide), lookup_count_optCountParam c hc']
  · simp only [search_patients_by_phone_params, List.singleton_append]
    rw [lookup_count_head _ (by decide), lookup_count_optCountParam c hc']
  · simp only [search_patients_by_email_params, List.singleton_append]
    rw [lookup_count_head _ (by decide), lookup_count_optCountParam c hc']
  · simp only [search_patients_by_address_params, List.append_assoc]
    rw [lookup_count_optStrParam _ (by decide), lookup_count_optStrParam _ (by decide),
      lookup_count_optStrParam _ (by decide), lookup_count_optCountParam c hc']
  · simp only [get_patient_observations_params, List.singleton_append]
    rw [lookup_count_head _ (by decide), lookup_count_optCountParam c hc']
  · simp only [get_patient_conditions_params, List.singleton_append]
    rw [lookup_count_head _ (by decide), lookup_count_optCountParam c hc']
  · simp only [get_patient_medications_params, List.singleton_append]
    rw [lookup_count_head _ (by decide), lookup_count_optCountParam c hc']

/-- Claim C7 witness: `count=150` yields a `_count` parameter of 100 in the
name search, and `min 150 100 = 100`. -/
theorem C7_amended_count_capped_witness :
    List.lookup "_count"
      (search_patients_by_name_params (some "John") none (some 150)) =
        some (.i (min 150 100)) ∧
    min (150 : Int) 100 = 100 :=
  ⟨(C7_amended_count_capped 150 (by decide)).1 (some "John") none, by decide⟩


/-! ### Claim C8 -/

theorem wf_envelope_ok (d : Json) (m : String) : (Envelope.ok d m).wellFormed :=
  Or.inl rfl

theorem wf_envelope_fail (e m : String) : (Envelope.fail e m).wellFormed :=
  Or.inr ⟨rfl, rfl⟩

theorem wf_fhirResponseEnvelope (o : HttpOutcome) :
    (fhirResponseEnvelope o).wellFormed := by
  cases o <;> simp only [fhirResponseEnvelope] <;> (repeat' split) <;>
    first
      | exact wf_envelope_ok _ _
      | exact wf_envelope_fail _ _

theorem wf_fhirExceptionEnvelope (e : PyError) :
    (fhirExceptionEnvelope e).wellFormed := by
  cases e <;> exact wf_envelope_fail _ _

theorem wf_make_fhir_request (cfg : FhirConfig) (st : TokenState) (now : Int)
    (world : HttpRequest → HttpOutcome) (endpoint : String)
    (params : List (String × PValue)) :
    (make_fhir_request cfg st now world endpoint params).1.wellFormed := by
  unfold make_fhir_request
  split
  · exact wf_fhirExceptionEnvelope _
  · exact wf_fhirResponseEnvelope _

/-- Claim C8 (confirmed): every tool of both servers returns exactly one
envelope with a boolean `success` and either a `data` field or both an
`error` and a `message` field — for every configuration, cache state,
argument list and world behaviour. -/
theorem C8_envelope_shape :
    (∀ cfg st now world pid,
      (get_patient_by_id cfg st now world pid).1.wellFormed) ∧
    (∀ cfg st now world g f c,
      (search_patients_by_name cfg st now world g f c).1.wellFormed) ∧
    (∀ cfg st now world t v c,
      (search_patients_by_identifier cfg st now world t v c).1.wellFormed) ∧
    (∀ cfg st now world b c,
      (search_patients_by_birthdate cfg st now world b c).1.wellFormed) ∧
    (∀ cfg st now world p c,
      (search_patients_by_phone cfg st now world p c).1.wellFormed) ∧
    (∀ cfg st now world e c,
      (search_patients_by_email cfg st now world e c).1.wellFormed) ∧
    (∀ cfg st now world pc city stt c,
      (search_patients_by_address cfg st now world pc city stt c).1.wellFormed) ∧
    (∀ cfg st now world pid c,
      (get_patient_observations cfg st now world pid c).1.wellFormed) ∧
    (∀ cfg st now world pid c,
      (get_patient_conditions cfg st now world pid c).1.wellFormed) ∧
    (∀ cfg st now world pid c,
      (get_patient_medications cfg st now world pid c).1.wellFormed) ∧
    (∀ cfg st now world,
      (get_fhir_capabilities cfg st now world).1.wellFormed) ∧
    (∀ world npi, (search_npi_by_number world npi).1.wellFormed) ∧
    (∀ world f l c s, (search_npi_by_name world f l c s).1.wellFormed) ∧
    (∀ world t c s, (search_npi_by_taxonomy world t c s).1.wellFormed) ∧
    (∀ world o c s, (search_npi_by_organization_name world o c s).1.wellFormed) ∧
    (∀ world npi, (get_provider_details world npi).1.wellFormed) := by
  refine ⟨fun cfg st now world pid => wf_make_fhir_request cfg st now world _ _,
    fun cfg st now world g f c => ?_,
    fun cfg st now world t v c => wf_make_fhir_request cfg st now world _ _,
    fun cfg st now world b c => wf_make_fhir_request cfg st now world _ _,
    fun cfg st now world p c => wf_make_fhir_request cfg st now world _ _,
    fun cfg st now world e c => wf_make_fhir_request cfg st now world _ _,
    fun cfg st now world pc city stt c => ?_,
    fun cfg st now world pid c => wf_make_fhir_request cfg st now world _ _,
    fun cfg st now world pid c => wf_make_fhir_request cfg st now world _ _,
    fun cfg st now world pid c => wf_make_fhir_request cfg st now world _ _,
    fun cfg st now world => wf_make_fhir_request cfg st now world _ _,
    fun world npi => ?_, fun world f l c s => ?_, fun world t c s => ?_,
    fun world o c s => ?_, fun world npi => ?_⟩
  · simp only [search_patients_by_name]
    split
    · exact wf_envelope_fail _ _
    · exact wf_make_fhir_request cfg st now world _ _
  · simp only [search_patients_by_address]
    split
    · exact wf_envelope_fail _ _
    · exact wf_make_fhir_request cfg st now world _ _
  · simp only [search_npi_by_number]
    cases world (npiGet (NPI_API_BASE_URL ++ "?number=" ++ npi ++ "&version=2.1")) <;>
      (repeat' split) <;>
      first
        | exact wf_envelope_ok _ _
        | exact wf_envelope_fail _ _
  · simp only [search_npi_by_name]
    cases world (npiGet (npiQueryUrl (search_npi_by_name_params f l c s))) <;>
      (repeat' split) <;>
      first
        | exact wf_envelope_ok _ _
        | exact wf_envelope_fail _ _
  · simp only [search_npi_by_taxonomy]
    cases world (npiGet (npiQueryUrl (search_npi_by_taxonomy_params t c s))) <;>
      (repeat' split) <;>
      first
        | exact wf_envelope_ok _ _
        | exact wf_envelope_fail _ _
  · simp only [search_npi_by_organization_name]
    cases world (npiGet (npiQueryUrl (search_npi_by_organization_name_params o c s))) <;>
      (repeat' split) <;>
      first
        | exact wf_envelope_ok _ _
        | exact wf_envelope_fail _ _
  · simp only [get_provider_details]
    cases world (npiGet (NPI_API_BASE_URL ++ "?number=" ++ npi ++ "&version=2.1")) <;>
      (repeat' split) <;>
      first
        | exact wf_envelope_ok _ _
        | exact wf_envelope_fail _ _

/-! ### Claim C9 -/

/-- Claim C9 counterexample: the claim's reshape clause fails when the
non-empty `results` array holds a malformed first result. With a 200
response whose body is `{"results": [5]}`, the first result is not a dict,
so the reshape raises `AttributeError` (`provider.get` on an int) and the
call returns the catch-all `Failure` envelope with message
"Unexpected error occurred" — not a Success envelope carrying a flattened
record as the claim asserts for every non-empty `results`. -/
theorem C9_counterexample :
    (get_provider_details npiBadWorld "123").1.success = false ∧
    (get_provider_details npiBadWorld "123").1.message =
      some "Unexpected error occurred" ∧
    (get_provider_details npiBadWorld "123").1.data = none :=
  ⟨rfl, rfl, rfl⟩

/-- Claim C9 (amended): when the NPI lookup behind `get_provider_details`
answers HTTP 200, an empty `results` array — or an absent `results` key —
yields the Failure envelope with `success = false` and
`error = "No provider found with the given NPI number"`. When `results` is
non-empty and the reshape of its first result succeeds (`provider_details?`:
the first result is a dict, its optional `basic` is a dict, and the name
fields are strings or absent — exactly the accesses Python performs without
raising), the tool returns a Success envelope whose data is the flattened
record built from that first result only, independent of the remaining
results. When the reshape of the first result raises
(`provider_details? = none`), the call returns the catch-all Failure
envelope with message "Unexpected error occurred". -/
theorem C9_amended_provider_details_reshape (world : HttpRequest → HttpOutcome)
    (npi : String) (body : Json) (text : String)
    (hresp : world (npiGet (NPI_API_BASE_URL ++ "?number=" ++ npi ++ "&version=2.1")) =
      .resp 200 body text) :
    (body.get? "results" = some (.arr []) →
      (get_provider_details world npi).1 =
        Envelope.fail "No provider found with the given NPI number"
          "Provider not found") ∧
    (∀ fields, body = .obj fields → lookupField fields "results" = none →
      (get_provider_details world npi).1 =
        Envelope.fail "No provider found with the given NPI number"
          "Provider not found") ∧
    (∀ provider rest details,
      body.get? "results" = some (.arr (provider :: rest)) →
      provider_details? provider = some details →
      (get_provider_details world npi).1 =
        Envelope.ok details "Provider details retrieved successfully") ∧
    (∀ provider rest,
      body.get? "results" = some (.arr (provider :: rest)) →
      provider_details? provider = none →
      (get_provider_details world npi).1.success = false ∧
      (get_provider_details world npi).1.message =
        some "Unexpected error occurred") := by
  refine ⟨fun h => ?_, fun fields hb h => ?_,
    fun provider rest details h hpd => ?_, fun provider rest h hpd => ?_⟩
  · cases body with
    | obj fields =>
      simp [get_provider_details, hresp, h, providerNotFoundEnvelope]
    | null => simp [Json.get?] at h
    | bool b => simp [Json.get?] at h
    | num n => simp [Json.get?] at h
    | str s => simp [Json.get?] at h
    | arr xs => simp [Json.get?] at h
  · subst hb
    simp [get_provider_details, hresp, Json.get?, h, providerNotFoundEnvelope]
  · cases body with
    | obj fields =>
      simp [get_provider_details, hresp, h, hpd]
    | null => simp [Json.get?] at h
    | bool b => simp [Json.get?] at h
    | num n => simp [Json.get?] at h
    | str s => simp [Json.get?] at h
    | arr xs => simp [Json.get?] at h
  · cases body with
    | obj fields =>
      constructor <;>
        simp [get_provider_details, hresp, h, hpd, unexpectedEnvelope,
          Envelope.fail]
    | null => simp [Json.get?] at h
    | bool b => simp [Json.get?] at h
    | num n => simp [Json.get?] at h
    | str s => simp [Json.get?] at h
    | arr xs => simp [Json.get?] at h

/-- Claim C9 witness: an empty `results` array yields the "not found"
Failure envelope; a single well-formed provider yields the reshaped record
of that provider. -/
theorem C9_amended_provider_details_reshape_witness :
    (get_provider_details npiEmptyWorld "123").1 =
      Envelope.fail "No provider found with the given NPI number"
        "Provider not found" ∧
    (get_provider_details npiOneWorld "1234567890").1 =
      Envelope.ok
        (provider_details_record npiProvider npiProviderBasic "JANE" "DOE")
        "Provider details retrieved successfully" :=
  ⟨(C9_amended_provider_details_reshape npiEmptyWorld "123" npiEmptyBody ""
      rfl).1 rfl,
   (C9_amended_provider_details_reshape npiOneWorld "1234567890" npiOneBody ""
      rfl).2.2.1 npiProvider []
      (provider_details_record npiProvider npiProviderBasic "JANE" "DOE")
      rfl rfl⟩

/-! ### Claim C10 -/

theorem search_npi_by_name_requests (world : HttpRequest → HttpOutcome)
    (f l : String) (c s : Option String) :
    (search_npi_by_name world f l c s).2 =
      [npiGet (npiQueryUrl (search_npi_by_name_params f l c s))] := by
  simp only [search_npi_by_name]
  cases world (npiGet (npiQueryUrl (search_npi_by_name_params f l c s))) <;>
    (repeat' split) <;> rfl

theorem search_npi_by_taxonomy_requests (world : HttpRequest → HttpOutcome)
    (t : String) (c s : Option String) :
    (search_npi_by_taxonomy world t c s).2 =
      [npiGet (npiQueryUrl (search_npi_by_taxonomy_params t c s))] := by
  simp only [search_npi_by_taxonomy]
  cases world (npiGet (npiQueryUrl (search_npi_by_taxonomy_params t c s))) <;>
    (repeat' split) <;> rfl

/-- Claim C10 (confirmed): the NPI search tools with optional location
filters build the request URL by joining raw `key=value` pairs with `&` in
fixed insertion order — required parameters first, then `version=2.1`, then
`city`, then `state` — with no percent-encoding (`npiQueryUrl` is plain
string concatenation). The final conjunct evaluates a call whose values
contain `&`, `=` and spaces: they appear verbatim in the URL. -/
theorem C10_npi_url_building (world : HttpRequest → HttpOutcome)
    (f l t c s : String) (hc : c ≠ "") (hs : s ≠ "") :
    ((search_npi_by_name world f l (some c) (some s)).2 =
      [npiGet (npiQueryUrl [("first_name", f), ("last_name", l),
        ("version", "2.1"), ("city", c), ("state", s)])]) ∧
    ((search_npi_by_name world f l none none).2 =
      [npiGet (npiQueryUrl [("first_name", f), ("last_name", l),
        ("version", "2.1")])]) ∧
    ((search_npi_by_taxonomy world t (some c) (some s)).2 =
      [npiGet (npiQueryUrl [("taxonomy_description", t),
        ("version", "2.1"), ("city", c), ("state", s)])]) ∧
    ((search_npi_by_taxonomy world t none none).2 =
      [npiGet (npiQueryUrl [("taxonomy_description", t), ("version", "2.1")])]) ∧
    ((search_npi_by_name npiEmptyWorld "a&b" "c=d e" (some "x y") none).2 =
      [npiGet
        "https://npiregistry.cms.hhs.gov/api/?first_name=a&b&last_name=c=d e&version=2.1&city=x y"]) := by
  refine ⟨?_, ?_, ?_, ?_, rfl⟩
  · rw [search_npi_by_name_requests]
    simp [search_npi_by_name_params, optLocParam, hc, hs]
  · rw [search_npi_by_name_requests]
    simp [search_npi_by_name_params, optLocParam]
  · rw [search_npi_by_taxonomy_requests]
    simp [search_npi_by_taxonomy_params, optLocParam, hc, hs]
  · rw [search_npi_by_taxonomy_requests]
    simp [search_npi_by_taxonomy_params, optLocParam]

/-- Claim C10 witness: concrete name search with both location filters. -/
theorem C10_npi_url_building_witness :
    (search_npi_by_name okWorld "JANE" "DOE" (some "Boston") (some "MA")).2 =
      [npiGet (npiQueryUrl [("first_name", "JANE"), ("last_name", "DOE"),
        ("version", "2.1"), ("city", "Boston"), ("state", "MA")])] :=
  (C10_npi_url_building okWorld "JANE" "DOE" "x" "Boston" "MA"
    (by decide) (by decide)).1
